import Mathlib

/-!
Verification development for `wioaspp-getplans.py`, a script that brute-force
guesses WIOA state-plan file URLs, probes them, and keeps two persistent logs
(a success log keyed by (plan year, state) and a set of individually failed
URLs).  The definitions below are a shallow embedding of the script: pure
string manipulation is translated function-for-function, network and
filesystem effects are made explicit parameters (a probe oracle, a write
outcome, a list of existing file paths).  Strings are modelled at the level of
Unicode code points, which coincides with Python semantics for the ASCII data
this script handles.
-/

/-! ### Configuration constants (script lines 11-16, 29-31) -/

def BASE_URL : String := "https://wioaplans.ed.gov"

def BASE_DOWNLOAD_DIR : String := "wioa_plans"

def FILE_BASE_PATH_PDFS : String := "/sites/default/files/pdfs/state-plan/"

def FILE_BASE_PATH_PLANS : String := "/sites/default/files/state_plans/"

def TARGET_PLAN_YEARS : List Int := [2024, 2022, 2020, 2018, 2016]

/-- `PLAN_YEAR_RANGES.get(plan_year, f"{plan_year}-{plan_year+3}")` (lines 30, 378). -/
def plan_year_range (plan_year : Int) : String :=
  if plan_year = 2024 then "2024-2027"
  else if plan_year = 2022 then "2022-2023"
  else if plan_year = 2020 then "2020-2023"
  else toString plan_year ++ "-" ++ toString (plan_year + 3)

/-- `FOLDER_YEAR_CANDIDATES.get(plan_year, [str(plan_year)])` (lines 31, 378);
the integer folder entries are rendered into the URL by the f-string, so they
are kept as strings here. -/
def folder_year_candidates (plan_year : Int) : List String :=
  if plan_year = 2024 then ["2024", "2025"]
  else if plan_year = 2022 then ["2022", "2023"]
  else if plan_year = 2020 then ["2020", "2021"]
  else [toString plan_year]

/-! ### String helpers: `urllib.parse.quote` / `unquote`, `urlparse`,
`os.path` pieces, and `sanitize_filename` (script lines 36-43).  All are
modelled code-point-wise, which matches CPython for ASCII input (the only
input this script produces; non-ASCII would be UTF-8 byte-wise in CPython). -/

/-- Upper-case hexadecimal digit, as used by `urllib.parse.quote`. -/
def hex_digit (n : Nat) : Char :=
  if n < 10 then Char.ofNat (48 + n) else Char.ofNat (55 + n)

/-- One character of `urllib.parse.quote(s)` with the default `safe='/'`:
ASCII alphanumerics and `_.-~/` pass through, everything else is
percent-encoded. -/
def quote_char (c : Char) : List Char :=
  if c.isAlphanum || c = '_' || c = '.' || c = '-' || c = '~' || c = '/' then [c]
  else ['%', hex_digit (c.toNat / 16 % 16), hex_digit (c.toNat % 16)]

/-- `urllib.parse.quote(state_name)` (script line 370). -/
def quote (s : String) : String :=
  String.mk (s.data.map quote_char).flatten

/-- Hexadecimal value of a character, if any. -/
def hex_val? (c : Char) : Option Nat :=
  if 48 ≤ c.toNat ∧ c.toNat ≤ 57 then some (c.toNat - 48)
  else if 65 ≤ c.toNat ∧ c.toNat ≤ 70 then some (c.toNat - 55)
  else if 97 ≤ c.toNat ∧ c.toNat ≤ 102 then some (c.toNat - 87)
  else none

/-- Percent-decoding; an invalid escape leaves the `%` untouched, as in
`urllib.parse.unquote`. -/
def unquote_chars : List Char → List Char
  | [] => []
  | '%' :: h1 :: h2 :: rest =>
    match hex_val? h1, hex_val? h2 with
    | some a, some b => Char.ofNat (16 * a + b) :: unquote_chars rest
    | _, _ => '%' :: unquote_chars (h1 :: h2 :: rest)
  | c :: rest => c :: unquote_chars rest

/-- `urllib.parse.unquote` (script lines 37, 129). -/
def unquote (s : String) : String :=
  String.mk (unquote_chars s.data)

/-- The characters removed by `re.sub(r'[\\/*?:"<>|]', "", ...)` (line 39). -/
def bad_filename_chars : List Char := ['\\', '/', '*', '?', ':', '"', '<', '>', '|']

/-- Index of the last occurrence of `c`, if any. -/
def last_index_of (c : Char) : List Char → Option Nat
  | [] => none
  | a :: rest =>
    match last_index_of c rest with
    | some i => some (i + 1)
    | none => if a = c then some 0 else none

/-- `os.path.splitext` on a name already free of path separators: split at the
last dot, unless every character before it is itself a dot. -/
def splitext (l : List Char) : List Char × List Char :=
  match last_index_of '.' l with
  | none => (l, [])
  | some i => if (l.take i).any (fun c => c ≠ '.') then (l.take i, l.drop i) else (l, [])

/-- Python slice `l[:n]`, where a negative `n` counts from the end. -/
def py_take (l : List Char) (n : Int) : List Char :=
  if 0 ≤ n then l.take n.toNat else l.take (l.length - (-n).toNat)

/-- `sanitize_filename` (script lines 36-43): percent-decode, strip the
forbidden characters, replace spaces by underscores, and truncate to 200
characters preserving the extension. -/
def sanitize_filename (filename : String) : String :=
  let decoded := unquote filename
  let s1 := decoded.data.filter (fun c => !(c ∈ bad_filename_chars))
  let s2 := s1.map (fun c => if c = ' ' then '_' else c)
  if s2.length > 200 then
    let ne := splitext s2
    String.mk (py_take ne.1 (200 - (ne.2.length : Int)) ++ ne.2)
  else String.mk s2

/-- Scan forward to the first `"://"`. -/
def after_scheme : List Char → Option (List Char)
  | [] => none
  | ':' :: '/' :: '/' :: rest => some rest
  | _ :: rest => after_scheme rest

/-- Drop the host part: everything up to the first `/`. -/
def drop_to_slash : List Char → List Char
  | [] => []
  | '/' :: rest => '/' :: rest
  | _ :: rest => drop_to_slash rest

/-- `urlparse(url).path` for the `scheme://host/path` URLs this script
handles: the part from the first slash after the host up to a query or
fragment delimiter. -/
def urlparse_path (u : String) : String :=
  match after_scheme u.data with
  | some rest => String.mk ((drop_to_slash rest).takeWhile (fun c => c ≠ '?' ∧ c ≠ '#'))
  | none => ""

/-- `os.path.basename`: the part after the last `/`. -/
def basename (s : String) : String :=
  String.mk (s.data.reverse.takeWhile (fun c => c ≠ '/')).reverse

/-- Whether `p` is a literal prefix of `l`. -/
def starts_with_chars : List Char → List Char → Bool
  | [], _ => true
  | _ :: _, [] => false
  | p :: ps, c :: cs => p = c && starts_with_chars ps cs

/-- First match of `re.findall('filename="?([^"]+)"?', cd)` (line 128): find
`filename=`, optionally skip one double quote, and capture the following
nonempty run of non-quote characters. -/
def scan_filename_match : List Char → Option (List Char)
  | [] => none
  | c :: rest =>
    if starts_with_chars "filename=".data (c :: rest) then
      let after := (c :: rest).drop 9
      let after2 := match after with
        | '"' :: r => r
        | r => r
      let val := after2.takeWhile (fun x => x ≠ '"')
      if val.isEmpty then scan_filename_match rest else some val
    else scan_filename_match rest

/-- `os.path.join(dir, fname)` (posix semantics, the shapes this script uses). -/
def os_path_join (dir fname : String) : String :=
  if fname.data.head? = some '/' then fname
  else if dir = "" then fname
  else if dir.data.getLast? = some '/' then dir ++ fname
  else dir ++ "/" ++ fname

/-! ### The probe: `attempt_download` (script lines 113-157).
The network is an oracle (`FetchOutcome`), the local filesystem is the list of
existing paths, and the outcome of the body-writing loop is a `WriteOutcome`
covering the three ways lines 139-146 can go: the write succeeds; `makedirs`
or `open` raises before a file is created; or streaming the body raises after
`open(filepath, 'wb')` has already created the file, leaving a partial file. -/

/-- The parts of a `requests` response that `attempt_download` consumes:
`response.status_code`, `response.url` (the final, post-redirect URL) and the
`content-disposition` header. -/
structure HttpResponse where
  status_code : Nat
  url : String
  content_disposition : Option String

/-- Result of `requests.get`: a response, or one of the exception paths of
lines 151-156 (all of which yield `None`). -/
inductive FetchOutcome where
  | ok : HttpResponse → FetchOutcome
  | timeout : FetchOutcome
  | request_error : FetchOutcome
  | other_error : FetchOutcome

/-- How the write of lines 139-141 goes. -/
inductive WriteOutcome where
  | ok : WriteOutcome
  | fail_before_create : WriteOutcome
  | fail_after_create : WriteOutcome

/-- Target filename derivation of lines 125-130: a sanitized
content-disposition filename if nonempty, else the sanitized basename of the
final URL's path if nonempty, else `download_{int(time.time())}.{ext}`.
Python's `if not filename` treats both `None` and `""` as absent. -/
def derive_filename (r : HttpResponse) (now : Nat) : String :=
  let from_cd : Option String :=
    match r.content_disposition with
    | some cd =>
      match scan_filename_match cd.data with
      | some f => some (sanitize_filename (String.mk f))
      | none => none
    | none => none
  let f1 : Option String :=
    match from_cd with
    | some s => if s = "" then none else some s
    | none => none
  match f1 with
  | some f => f
  | none =>
    let fname_path := basename (unquote (urlparse_path r.url))
    let f2 : Option String :=
      if fname_path = "" then none
      else if sanitize_filename fname_path = "" then none
      else some (sanitize_filename fname_path)
    match f2 with
    | some f => f
    | none =>
      let lower := r.url.data.map Char.toLower
      let ext :=
        if ".docx".data.isSuffixOf lower then "docx"
        else if ".pdf".data.isSuffixOf lower then "pdf"
        else "download"
      "download_" ++ toString now ++ "." ++ ext

/-- `attempt_download(url, target_save_dir)` (lines 113-157): returns the
final URL on success and `none` on failure, together with the filesystem
after the call.  On a 200 with the file already present nothing is written
(lines 133-135); on a 200 with the file absent the body is written, and a
write failure yields `None` with no cleanup of a partially created file
(lines 136-146); every other status and every exception yields `None`
(lines 147-156). -/
def attempt_download (fetch : FetchOutcome) (write : WriteOutcome) (now : Nat)
    (target_save_dir : String) (fs : List String) : Option String × List String :=
  match fetch with
  | .ok r =>
    if r.status_code = 200 then
      let filepath := os_path_join target_save_dir (derive_filename r now)
      if filepath ∈ fs then (some r.url, fs)
      else
        match write with
        | .ok => (some r.url, filepath :: fs)
        | .fail_before_create => (none, fs)
        | .fail_after_create => (none, filepath :: fs)
    else (none, fs)
  | _ => (none, fs)

/-! ### Candidate URL generation (script lines 370-383) -/

/-- `urljoin(BASE_URL, url_path)` for the absolute paths this script builds. -/
def urljoin (base ref : String) : String := base ++ ref

/-- The year-specific URL generation of lines 374-383, producing
`urls_to_try` for one `(plan_year, state)` combination.  `state_name` feeds
the legacy branch through `quote`; `state_fname_part` (the display name with
spaces replaced by underscores, line 323) feeds the modern stems. -/
def urls_to_try (plan_year : Int) (state_name state_fname_part : String) : List String :=
  if plan_year = 2016 ∨ plan_year = 2018 then
    [urljoin BASE_URL (FILE_BASE_PATH_PLANS ++ toString plan_year ++ "/" ++ (quote state_name ++ ".pdf"))]
  else if plan_year ≥ 2020 then
    let exts := if plan_year = 2024 then [".docx"] else [".pdf"]
    let yr_range := plan_year_range plan_year
    let base_stem := state_fname_part ++ "_PYs_" ++ yr_range
    let stems := if plan_year = 2022 then [base_stem ++ "_(mod)"] else [base_stem]
    let suffixes := ["", "_0", "_1", "_2"]
    let folders := folder_year_candidates plan_year
    folders.flatMap (fun folder =>
      stems.flatMap (fun stem =>
        suffixes.flatMap (fun suffix =>
          exts.flatMap (fun ext =>
            let fname := stem ++ suffix ++ ext
            [urljoin BASE_URL (FILE_BASE_PATH_PDFS ++ folder ++ "/" ++ fname),
             urljoin BASE_URL (FILE_BASE_PATH_PDFS ++ folder ++ "//" ++ fname)]))))
  else []

/-- The single legacy candidate of line 376. -/
def legacy_url (plan_year : Int) (state_name : String) : String :=
  urljoin BASE_URL (FILE_BASE_PATH_PLANS ++ toString plan_year ++ "/" ++ (quote state_name ++ ".pdf"))

/-- A modern-scheme candidate as built on line 383: folder, stem, suffix and
extension assembled under `FILE_BASE_PATH_PDFS`, with either a single or a
doubled path separator after the folder. -/
def mk_modern_url (folder stem suffix ext : String) (dbl : Bool) : String :=
  urljoin BASE_URL (FILE_BASE_PATH_PDFS ++ folder ++ (if dbl then "//" else "/") ++ (stem ++ suffix ++ ext))

/-! ### The success log and failure set (script lines 45-111).
The success log is a Python dict keyed by `(year, state)`; it is modelled as
an insertion-ordered association list whose keys are unique, with
dict-update semantics (`dict_insert` replaces in place, or appends).  The
failure set is modelled as a duplicate-free list of URLs. -/

/-- A resolution key: `(plan_year, state_name)`. -/
abbrev LogKey := Int × String

/-- Dict lookup on the association-list model. -/
def log_lookup (log : List (LogKey × String)) (k : LogKey) : Option String :=
  match log with
  | [] => none
  | e :: rest => if e.1 = k then some e.2 else log_lookup rest k

/-- `log[key] = value` on a Python dict: replace in place if the key exists,
else append. -/
def dict_insert (log : List (LogKey × String)) (k : LogKey) (v : String) : List (LogKey × String) :=
  if (log_lookup log k).isSome then
    log.map (fun e => if e.1 = k then (k, v) else e)
  else log ++ [(k, v)]

/-- One CSV row of the success log as read back (all fields strings). -/
structure CsvRow where
  year : String
  state : String
  url : String

/-- The body of the row loop of `load_download_log` (lines 52-56): parse the
year as an integer (a row whose year does not parse is skipped by the
`except ... pass`) and record `log[(year, state)] = url` only when the URL
is nonempty (line 55's `if url:`).  `String.toInt?` stands in for Python
`int(...)`; both accept the plain decimal forms this log contains. -/
def load_row (log : List (LogKey × String)) (row : CsvRow) : List (LogKey × String) :=
  match row.year.toInt? with
  | none => log
  | some y => if row.url = "" then log else dict_insert log (y, row.state) row.url

/-- `load_download_log` (lines 45-59). -/
def load_download_log (rows : List CsvRow) : List (LogKey × String) :=
  rows.foldl load_row []

/-- Code-point lexicographic comparison, as Python compares strings. -/
def list_lex_le : List Char → List Char → Bool
  | [], _ => true
  | _ :: _, [] => false
  | a :: as, b :: bs => if a = b then list_lex_le as bs else decide (a.toNat < b.toNat)

/-- The sort key of lines 69 and 244: ascending in `(-year, state)`,
i.e. year descending then state ascending. -/
def log_key_le (a b : LogKey) : Bool :=
  if a.1 = b.1 then list_lex_le a.2.data b.2.data else decide (b.1 < a.1)

/-- `log[key]` for a key taken from `log.keys()`. -/
def log_lookup_default (log : List (LogKey × String)) (k : LogKey) : String :=
  (log_lookup log k).getD ""

/-- `save_download_log` (lines 61-73), as the list of rows it writes: the
keys sorted by `(-year, state)` (a stable sort, as Python's `sorted`), one
row per key whose stored URL is truthy (line 71's `if log[key]:`). -/
def save_download_log (log : List (LogKey × String)) : List (LogKey × String) :=
  let sorted_keys := (log.map Prod.fst).insertionSort (fun a b => log_key_le a b = true)
  (sorted_keys.filter (fun k => log_lookup_default log k != "")).map
    (fun k => (k, log_lookup_default log k))

/-! ### The per-candidate probing loop (script lines 386-401) -/

/-- The loop `for full_url in urls_to_try` of lines 386-401, abstracted over
the network as `probe` (the outcome of `attempt_download` for each URL).
Returns `(found_url_for_combo, failed_urls_set, fetched)` where `fetched`
lists, in order, the URLs actually given to `attempt_download`.  A URL
already in the failure set is skipped before any fetch unless
`is_retry_target` (lines 389-392); a failing fetch is appended to the
failure set if new (`log_failed_url`, lines 94-97, 400); a succeeding fetch
ends the loop (line 398). -/
def run_candidates (probe : String → Option String) (is_retry_target : Bool) :
    List String → List String → Option String × List String × List String
  | failed_urls_set, [] => (none, failed_urls_set, [])
  | failed_urls_set, full_url :: rest =>
    if ¬is_retry_target ∧ full_url ∈ failed_urls_set then
      run_candidates probe is_retry_target failed_urls_set rest
    else
      match probe full_url with
      | some result => (some result, failed_urls_set, [full_url])
      | none =>
        let failed' := if full_url = "" then failed_urls_set
                       else if full_url ∈ failed_urls_set then failed_urls_set
                       else failed_urls_set ++ [full_url]
        let r := run_candidates probe is_retry_target failed' rest
        (r.1, r.2.1, full_url :: r.2.2)

/-- Outcome of one `(state, plan_year)` combination of the find/download
loop. -/
structure ComboResult where
  found_url_for_combo : Option String
  download_log : List (LogKey × String)
  failed_urls_set : List String
  fetched : List String

/-- One iteration of the find/download loop for a `(state, plan_year)`
combination (lines 354-404): if the key is already in the success log the
combination is skipped before any URL is generated or probed (lines
359-363); otherwise the candidates are probed in order and a success is
recorded in the log (line 397). -/
def process_combination (probe : String → Option String) (retry_states : List String)
    (download_log : List (LogKey × String)) (failed_urls_set : List String)
    (plan_year : Int) (state_name state_fname_part : String) : ComboResult :=
  let log_key : LogKey := (plan_year, state_name)
  if (log_lookup download_log log_key).isSome then
    ⟨none, download_log, failed_urls_set, []⟩
  else
    let is_retry_target := decide (state_name ∈ retry_states)
    let r := run_candidates probe is_retry_target failed_urls_set
      (urls_to_try plan_year state_name state_fname_part)
    let log' := match r.1 with
      | some found =>
        if log_lookup download_log log_key ≠ some found then dict_insert download_log log_key found
        else download_log
      | none => download_log
    ⟨r.1, log', r.2.1, r.2.2⟩

/-! ### Update (verify) mode (script lines 159-199, 228-293) -/

/-- The parsed `--update` targets (lines 160-199). -/
structure UpdateTargets where
  states : List String
  years : List Int
  state_years : List (String × Int)
  update_all : Bool

/-- Python `arg.split(':', 1)` when a colon is present. -/
def split_first_colon : List Char → Option (List Char × List Char)
  | [] => none
  | ':' :: rest => some ([], rest)
  | c :: rest =>
    match split_first_colon rest with
    | some p => some (c :: p.1, p.2)
    | none => none

/-- `parse_update_targets` (lines 160-199): `STATE:YYYY` pairs, bare years,
bare state names; no arguments, or no argument that parses, means "update
everything". -/
def parse_update_targets (update_args : List String) : UpdateTargets :=
  if update_args.isEmpty then ⟨[], [], [], true⟩
  else
    let t := update_args.foldl (fun t arg0 =>
      let arg := arg0.trim
      match split_first_colon arg.data with
      | some p =>
        match ((String.mk p.2).trim).toInt? with
        | some y => { t with state_years := t.state_years ++ [((String.mk p.1).trim, y)] }
        | none => t
      | none =>
        match arg.toInt? with
        | some y => { t with years := t.years ++ [y] }
        | none => { t with states := t.states ++ [arg] }) ⟨[], [], [], false⟩
    if t.states.isEmpty ∧ t.years.isEmpty ∧ t.state_years.isEmpty then
      { t with update_all := true }
    else t

/-- The filter of lines 250-256: does this success-log entry match the
update targets? -/
def process_this_item (t : UpdateTargets) (state : String) (year : Int) : Bool :=
  if t.update_all then true
  else if state ∈ t.states then true
  else if year ∈ t.years then true
  else decide ((state, year) ∈ t.state_years)

/-- `sorted(download_log.items(), key=lambda item: (-item[0][0], item[0][1]))`
(line 244), modelled with a stable sort as Python's `sorted`. -/
def sort_log_items (log : List (LogKey × String)) : List (LogKey × String) :=
  log.insertionSort (fun a b => log_key_le a.1 b.1 = true)

/-- What an update-mode run touches. -/
structure UpdateResult where
  probed : List (LogKey × String)
  download_log : List (LogKey × String)
  failed_urls_file : List String
  success_count : Nat
  failed_check_count : Nat

/-- The `--update` loop (lines 246-282): iterate over the sorted success-log
entries, keep those matching the targets and carrying a nonempty URL, and
probe each one's stored URL.  The loop only adjusts counters on failure
(line 281); it never reassigns `download_log`, never calls
`save_download_log` (the comment on line 282: update mode is read-only
regarding logs), and the failure log is neither loaded nor appended to
anywhere in the update branch. -/
def update_mode_run (t : UpdateTargets) (download_log : List (LogKey × String))
    (failed_urls_file : List String) (probe : String → Option String) : UpdateResult :=
  let sorted_items := sort_log_items download_log
  let probed := sorted_items.filterMap (fun e =>
    if process_this_item t e.1.2 e.1.1 then
      if e.2 = "" then none else some e
    else none)
  let succ := (probed.filter (fun e => (probe e.2).isSome)).length
  ⟨probed, download_log, failed_urls_file, succ, probed.length - succ⟩

/-! ### Helper lemmas about the probing loop -/

/-- If the loop reports a success, the fetch trace is a block of failing
probes followed by the single succeeding one: nothing is fetched after the
first success. -/
theorem run_candidates_stop (probe : String → Option String) (retry : Bool) :
    ∀ (cands failed : List String) (res : String),
      (run_candidates probe retry failed cands).1 = some res →
      ∃ pre u, (run_candidates probe retry failed cands).2.2 = pre ++ [u] ∧
        probe u = some res ∧ ∀ v ∈ pre, probe v = none := by
  intro cands
  induction cands with
  | nil =>
    intro failed res h
    simp [run_candidates] at h
  | cons url rest ih =>
    intro failed res h
    by_cases hskip : ¬retry = true ∧ url ∈ failed
    · rw [run_candidates, if_pos hskip] at h ⊢
      exact ih failed res h
    · rw [run_candidates, if_neg hskip] at h ⊢
      cases hp : probe url with
      | some r =>
        rw [hp] at h
        simp at h
        refine ⟨[], url, by simp, ?_, by simp⟩
        rw [hp, h]
      | none =>
        rw [hp] at h
        simp only [] at h
        obtain ⟨pre, u, h1, h2, h3⟩ := ih _ res h
        refine ⟨url :: pre, u, ?_, h2, ?_⟩
        · simpa using h1
        · intro v hv
          rcases List.mem_cons.mp hv with rfl | hv
          · exact hp
          · exact h3 v hv

/-- In standard mode a URL in the (monotonically growing) failure set is
never fetched. -/
theorem run_candidates_skips_failed (probe : String → Option String) (X : String) :
    ∀ (cands failed : List String), X ∈ failed →
      X ∉ (run_candidates probe false failed cands).2.2 := by
  intro cands
  induction cands with
  | nil =>
    intro failed hX
    simp [run_candidates]
  | cons url rest ih =>
    intro failed hX
    by_cases hmem : url ∈ failed
    · rw [run_candidates, if_pos (by simpa using hmem)]
      exact ih failed hX
    · have hX_ne : X ≠ url := fun h => hmem (h ▸ hX)
      rw [run_candidates, if_neg (by simpa using hmem)]
      cases hp : probe url with
      | some r => simpa using hX_ne
      | none =>
        simp only []
        intro hc
        rcases List.mem_cons.mp hc with h | h
        · exact hX_ne h
        · refine ih _ ?_ h
          split
          · exact hX
          · exact List.mem_append_left _ hX

/-- In forced-retry mode, when every probe fails, every candidate is
fetched. -/
theorem run_candidates_retry_fetches_all (probe : String → Option String)
    (hall : ∀ u, probe u = none) :
    ∀ (cands failed : List String),
      (run_candidates probe true failed cands).2.2 = cands := by
  intro cands
  induction cands with
  | nil => intro failed; simp [run_candidates]
  | cons url rest ih =>
    intro failed
    rw [run_candidates, if_neg (by simp)]
    rw [hall url]
    simpa using ih _

/-! ### Claim theorems -/

/-- C1: for entity "Wyoming" and period 2024 the generator yields exactly the
sixteen URLs of folders {2024, 2025} × stem `Wyoming_PYs_2024-2027` ×
suffixes {"", "_0", "_1", "_2"} × extension ".docx", each in single- and
double-separator form, in folder-major order; and probing stops at the first
success, so no later candidate is fetched once one succeeds. -/
theorem wyoming_2024_candidate_enumeration :
    urls_to_try 2024 "Wyoming" "Wyoming" =
      ["https://wioaplans.ed.gov/sites/default/files/pdfs/state-plan/2024/Wyoming_PYs_2024-2027.docx",
       "https://wioaplans.ed.gov/sites/default/files/pdfs/state-plan/2024//Wyoming_PYs_2024-2027.docx",
       "https://wioaplans.ed.gov/sites/default/files/pdfs/state-plan/2024/Wyoming_PYs_2024-2027_0.docx",
       "https://wioaplans.ed.gov/sites/default/files/pdfs/state-plan/2024//Wyoming_PYs_2024-2027_0.docx",
       "https://wioaplans.ed.gov/sites/default/files/pdfs/state-plan/2024/Wyoming_PYs_2024-2027_1.docx",
       "https://wioaplans.ed.gov/sites/default/files/pdfs/state-plan/2024//Wyoming_PYs_2024-2027_1.docx",
       "https://wioaplans.ed.gov/sites/default/files/pdfs/state-plan/2024/Wyoming_PYs_2024-2027_2.docx",
       "https://wioaplans.ed.gov/sites/default/files/pdfs/state-plan/2024//Wyoming_PYs_2024-2027_2.docx",
       "https://wioaplans.ed.gov/sites/default/files/pdfs/state-plan/2025/Wyoming_PYs_2024-2027.docx",
       "https://wioaplans.ed.gov/sites/default/files/pdfs/state-plan/2025//Wyoming_PYs_2024-2027.docx",
       "https://wioaplans.ed.gov/sites/default/files/pdfs/state-plan/2025/Wyoming_PYs_2024-2027_0.docx",
       "https://wioaplans.ed.gov/sites/default/files/pdfs/state-plan/2025//Wyoming_PYs_2024-2027_0.docx",
       "https://wioaplans.ed.gov/sites/default/files/pdfs/state-plan/2025/Wyoming_PYs_2024-2027_1.docx",
       "https://wioaplans.ed.gov/sites/default/files/pdfs/state-plan/2025//Wyoming_PYs_2024-2027_1.docx",
       "https://wioaplans.ed.gov/sites/default/files/pdfs/state-plan/2025/Wyoming_PYs_2024-2027_2.docx",
       "https://wioaplans.ed.gov/sites/default/files/pdfs/state-plan/2025//Wyoming_PYs_2024-2027_2.docx"] ∧
    ∀ (probe : String → Option String) (failed : List String) (res : String),
      (run_candidates probe false failed (urls_to_try 2024 "Wyoming" "Wyoming")).1 = some res →
      ∃ pre u, (run_candidates probe false failed (urls_to_try 2024 "Wyoming" "Wyoming")).2.2 = pre ++ [u] ∧
        probe u = some res ∧ ∀ v ∈ pre, probe v = none :=
  ⟨by decide, fun probe failed res h => run_candidates_stop probe false _ failed res h⟩

/-- Probe used by the C1 witness: succeeds exactly on the first Wyoming 2024
candidate. -/
def wyoming_probe : String → Option String :=
  fun u => if u = "https://wioaplans.ed.gov/sites/default/files/pdfs/state-plan/2024/Wyoming_PYs_2024-2027.docx"
           then some "R" else none

theorem wyoming_2024_candidate_enumeration_witness :
    (run_candidates wyoming_probe false [] (urls_to_try 2024 "Wyoming" "Wyoming")).1 = some "R" ∧
    ∃ pre u, (run_candidates wyoming_probe false [] (urls_to_try 2024 "Wyoming" "Wyoming")).2.2 = pre ++ [u] ∧
      wyoming_probe u = some "R" ∧ ∀ v ∈ pre, wyoming_probe v = none :=
  ⟨by decide, wyoming_2024_candidate_enumeration.2 wyoming_probe [] "R" (by decide)⟩

/-- C2 counterexample: the single legacy candidate is built from
`quote(state_name)` — the percent-encoded display name — not from the
filename-safe (underscore) variant: for "New York" the generated candidate
is `.../2016/New%20York.pdf` and the URL built from `New_York` never
appears. -/
theorem legacy_candidate_not_filename_safe_cex :
    urls_to_try 2016 "New York" "New_York" =
      ["https://wioaplans.ed.gov/sites/default/files/state_plans/2016/New%20York.pdf"] ∧
    "https://wioaplans.ed.gov/sites/default/files/state_plans/2016/New_York.pdf" ∉
      urls_to_try 2016 "New York" "New_York" := by
  constructor
  · decide
  · decide

/-- C2 (amended): for every legacy period (2016 and 2018) and every entity,
exactly one candidate is generated, namely
`{BASE_URL}{FILE_BASE_PATH_PLANS}{period}/{quote(state_name)}.pdf` built from
the percent-encoded display name; and when the probe of that single
candidate fails, the key is exhausted with no success and at most that one
candidate ever fetched. -/
theorem legacy_period_single_candidate (plan_year : Int)
    (state_name state_fname_part : String) (probe : String → Option String)
    (is_retry_target : Bool) (failed : List String)
    (hy : plan_year = 2016 ∨ plan_year = 2018)
    (h404 : probe (legacy_url plan_year state_name) = none) :
    urls_to_try plan_year state_name state_fname_part = [legacy_url plan_year state_name] ∧
    (run_candidates probe is_retry_target failed
        (urls_to_try plan_year state_name state_fname_part)).1 = none ∧
    (run_candidates probe is_retry_target failed
        (urls_to_try plan_year state_name state_fname_part)).2.2.length ≤ 1 := by
  have hlist : urls_to_try plan_year state_name state_fname_part = [legacy_url plan_year state_name] := by
    rw [urls_to_try, if_pos hy]
    rfl
  refine ⟨hlist, ?_, ?_⟩ <;> rw [hlist] <;>
    by_cases hskip : ¬is_retry_target = true ∧ legacy_url plan_year state_name ∈ failed
  · rw [run_candidates, if_pos hskip]
    simp [run_candidates]
  · rw [run_candidates, if_neg hskip, h404]
    simp [run_candidates]
  · rw [run_candidates, if_pos hskip]
    simp [run_candidates]
  · rw [run_candidates, if_neg hskip, h404]
    simp [run_candidates]

theorem legacy_period_single_candidate_witness :
    urls_to_try 2016 "Texas" "Texas" = [legacy_url 2016 "Texas"] ∧
    (run_candidates (fun _ => none) false [] (urls_to_try 2016 "Texas" "Texas")).1 = none ∧
    (run_candidates (fun _ => none) false [] (urls_to_try 2016 "Texas" "Texas")).2.2.length ≤ 1 :=
  legacy_period_single_candidate 2016 "Texas" "Texas" (fun _ => none) false []
    (Or.inl rfl) rfl

/-- C4 counterexample: a 200 response whose body write fails after the file
has been created leaves the partial file on disk — `attempt_download`
returns `None` but performs no cleanup, so the destination path is present
in the resulting filesystem, contradicting "any partially written file at
the destination path is removed". -/
theorem write_failure_cleanup_cex :
    attempt_download (.ok ⟨200, "https://h/a.pdf", none⟩) .fail_after_create 0 "d" [] =
      (none, ["d/a.pdf"]) ∧
    "d/a.pdf" ∈ (attempt_download (.ok ⟨200, "https://h/a.pdf", none⟩) .fail_after_create 0 "d" []).2 := by
  constructor
  · decide
  · decide

/-- C4 (amended): when a probe returns HTTP 200 for a file not yet on disk
and the write of the body fails, the probe's outcome is Failed (no success
URL is returned); a partially created file at the destination path is left
in place, not removed (and if the failure struck before the file was
created, the filesystem is simply unchanged). -/
theorem write_failure_failed_no_cleanup (r : HttpResponse) (now : Nat) (dir : String)
    (fs : List String) (h200 : r.status_code = 200)
    (hnew : os_path_join dir (derive_filename r now) ∉ fs) :
    attempt_download (.ok r) .fail_after_create now dir fs =
      (none, os_path_join dir (derive_filename r now) :: fs) ∧
    attempt_download (.ok r) .fail_before_create now dir fs = (none, fs) := by
  constructor <;> simp [attempt_download, h200, hnew]

theorem write_failure_failed_no_cleanup_witness :
    attempt_download (.ok ⟨200, "https://h/b.pdf", none⟩) .fail_after_create 0 "d" ["d/a.pdf"] =
      (none, os_path_join "d" (derive_filename ⟨200, "https://h/b.pdf", none⟩ 0) :: ["d/a.pdf"]) ∧
    attempt_download (.ok ⟨200, "https://h/b.pdf", none⟩) .fail_before_create 0 "d" ["d/a.pdf"] =
      (none, ["d/a.pdf"]) :=
  write_failure_failed_no_cleanup ⟨200, "https://h/b.pdf", none⟩ 0 "d" ["d/a.pdf"]
    rfl (by decide)

/-- C5: a key present in the loaded success log is skipped before any URL is
generated or probed in a standard-mode run: the combination yields no fetch,
and both logs are left untouched. -/
theorem standard_mode_skips_resolved_key (probe : String → Option String)
    (download_log : List (LogKey × String)) (failed : List String)
    (plan_year : Int) (state_name state_fname_part url : String)
    (h : log_lookup download_log (plan_year, state_name) = some url) :
    process_combination probe [] download_log failed plan_year state_name state_fname_part =
      ⟨none, download_log, failed, []⟩ := by
  rw [process_combination, h]
  rfl

theorem standard_mode_skips_resolved_key_witness :
    process_combination (fun _ => none) [] [((2022, "Ohio"), "https://e/x.pdf")] []
        2022 "Ohio" "Ohio" =
      ⟨none, [((2022, "Ohio"), "https://e/x.pdf")], [], []⟩ :=
  standard_mode_skips_resolved_key (fun _ => none) [((2022, "Ohio"), "https://e/x.pdf")] []
    2022 "Ohio" "Ohio" "https://e/x.pdf" (by decide)

/-- C9: the success-log skip happens before the forced-retry bypass is
consulted, so even in `--try-again` mode with the entity targeted, a key
already in the success log is skipped entirely: no candidate is generated
or probed and nothing changes. -/
theorem try_again_skips_resolved_key (probe : String → Option String)
    (retry_states : List String) (download_log : List (LogKey × String))
    (failed : List String) (plan_year : Int) (state_name state_fname_part url : String)
    (_hmem : state_name ∈ retry_states)
    (h : log_lookup download_log (plan_year, state_name) = some url) :
    process_combination probe retry_states download_log failed plan_year state_name state_fname_part =
      ⟨none, download_log, failed, []⟩ := by
  rw [process_combination, h]
  rfl

theorem try_again_skips_resolved_key_witness :
    process_combination (fun _ => none) ["Ohio"] [((2022, "Ohio"), "https://e/x.pdf")] []
        2022 "Ohio" "Ohio" =
      ⟨none, [((2022, "Ohio"), "https://e/x.pdf")], [], []⟩ :=
  try_again_skips_resolved_key (fun _ => none) ["Ohio"] [((2022, "Ohio"), "https://e/x.pdf")] []
    2022 "Ohio" "Ohio" "https://e/x.pdf" (by decide) (by decide)

/-- C6: a URL in the loaded failure set is never fetched by a standard-mode
combination (it is skipped before any network attempt); a forced-retry run
targeting the owning entity, on a key not yet resolved and a server where
the URL (and its siblings) are still dead, does fetch it. -/
theorem failure_set_skip_vs_forced_retry (probe : String → Option String)
    (retry_states : List String) (download_log : List (LogKey × String))
    (failed : List String) (plan_year : Int) (state_name state_fname_part X : String)
    (hX : X ∈ failed) :
    X ∉ (process_combination probe [] download_log failed plan_year state_name state_fname_part).fetched ∧
    (state_name ∈ retry_states →
      log_lookup download_log (plan_year, state_name) = none →
      X ∈ urls_to_try plan_year state_name state_fname_part →
      (∀ u, probe u = none) →
      X ∈ (process_combination probe retry_states download_log failed plan_year state_name state_fname_part).fetched) := by
  constructor
  · rw [process_combination]
    split
    · simp
    · have hdec : decide (state_name ∈ ([] : List String)) = false := by simp
      simp only [hdec]
      exact run_candidates_skips_failed probe X _ failed hX
  · intro hs hkey hXurls hall
    rw [process_combination, hkey]
    simp only [Option.isSome_none, Bool.false_eq_true, if_false, decide_eq_true hs]
    rw [run_candidates_retry_fetches_all probe hall]
    · exact hXurls

/-- Probe and URL used by the C6 witness. -/
def wyoming_first_url : String :=
  "https://wioaplans.ed.gov/sites/default/files/pdfs/state-plan/2024/Wyoming_PYs_2024-2027.docx"

theorem failure_set_skip_vs_forced_retry_witness :
    wyoming_first_url ∉
      (process_combination (fun _ => none) [] [] [wyoming_first_url] 2024 "Wyoming" "Wyoming").fetched ∧
    wyoming_first_url ∈
      (process_combination (fun _ => none) ["Wyoming"] [] [wyoming_first_url] 2024 "Wyoming" "Wyoming").fetched := by
  have h := failure_set_skip_vs_forced_retry (fun _ => none) ["Wyoming"] [] [wyoming_first_url]
    2024 "Wyoming" "Wyoming" wyoming_first_url (by decide)
  exact ⟨h.1, h.2 (by decide) rfl (by decide) (fun _ => rfl)⟩

/-- C10: a 200 response whose derived destination path already exists on disk
is accepted as the completed download: `attempt_download` returns the final
post-redirect URL and the filesystem is untouched, whatever the pre-existing
file contains and however a write would have gone. -/
theorem existing_file_short_circuit (r : HttpResponse) (write : WriteOutcome) (now : Nat)
    (dir : String) (fs : List String) (h200 : r.status_code = 200)
    (hfs : os_path_join dir (derive_filename r now) ∈ fs) :
    attempt_download (.ok r) write now dir fs = (some r.url, fs) := by
  simp [attempt_download, h200, hfs]

/-- The 2022 candidate list spelled out: every stem is the modifier-bearing
one. -/
theorem urls_2022_eq (s f : String) :
    urls_to_try 2022 s f =
      [mk_modern_url "2022" (f ++ "_PYs_" ++ "2022-2023" ++ "_(mod)") "" ".pdf" false,
       mk_modern_url "2022" (f ++ "_PYs_" ++ "2022-2023" ++ "_(mod)") "" ".pdf" true,
       mk_modern_url "2022" (f ++ "_PYs_" ++ "2022-2023" ++ "_(mod)") "_0" ".pdf" false,
       mk_modern_url "2022" (f ++ "_PYs_" ++ "2022-2023" ++ "_(mod)") "_0" ".pdf" true,
       mk_modern_url "2022" (f ++ "_PYs_" ++ "2022-2023" ++ "_(mod)") "_1" ".pdf" false,
       mk_modern_url "2022" (f ++ "_PYs_" ++ "2022-2023" ++ "_(mod)") "_1" ".pdf" true,
       mk_modern_url "2022" (f ++ "_PYs_" ++ "2022-2023" ++ "_(mod)") "_2" ".pdf" false,
       mk_modern_url "2022" (f ++ "_PYs_" ++ "2022-2023" ++ "_(mod)") "_2" ".pdf" true,
       mk_modern_url "2023" (f ++ "_PYs_" ++ "2022-2023" ++ "_(mod)") "" ".pdf" false,
       mk_modern_url "2023" (f ++ "_PYs_" ++ "2022-2023" ++ "_(mod)") "" ".pdf" true,
       mk_modern_url "2023" (f ++ "_PYs_" ++ "2022-2023" ++ "_(mod)") "_0" ".pdf" false,
       mk_modern_url "2023" (f ++ "_PYs_" ++ "2022-2023" ++ "_(mod)") "_0" ".pdf" true,
       mk_modern_url "2023" (f ++ "_PYs_" ++ "2022-2023" ++ "_(mod)") "_1" ".pdf" false,
       mk_modern_url "2023" (f ++ "_PYs_" ++ "2022-2023" ++ "_(mod)") "_1" ".pdf" true,
       mk_modern_url "2023" (f ++ "_PYs_" ++ "2022-2023" ++ "_(mod)") "_2" ".pdf" false,
       mk_modern_url "2023" (f ++ "_PYs_" ++ "2022-2023" ++ "_(mod)") "_2" ".pdf" true] := rfl

/-- Every 2022 candidate is a modifier-stem URL. -/
theorem mem_urls_2022 (s f url : String) (h : url ∈ urls_to_try 2022 s f) :
    ∃ folder ∈ ["2022", "2023"], ∃ suffix ∈ ["", "_0", "_1", "_2"], ∃ dbl : Bool,
      url = mk_modern_url folder (f ++ "_PYs_" ++ "2022-2023" ++ "_(mod)") suffix ".pdf" dbl := by
  rw [urls_2022_eq] at h
  simp only [List.mem_cons, List.not_mem_nil, or_false] at h
  rcases h with rfl|rfl|rfl|rfl|rfl|rfl|rfl|rfl|rfl|rfl|rfl|rfl|rfl|rfl|rfl|rfl
  · exact ⟨"2022", by simp, "", by simp, false, rfl⟩
  · exact ⟨"2022", by simp, "", by simp, true, rfl⟩
  · exact ⟨"2022", by simp, "_0", by simp, false, rfl⟩
  · exact ⟨"2022", by simp, "_0", by simp, true, rfl⟩
  · exact ⟨"2022", by simp, "_1", by simp, false, rfl⟩
  · exact ⟨"2022", by simp, "_1", by simp, true, rfl⟩
  · exact ⟨"2022", by simp, "_2", by simp, false, rfl⟩
  · exact ⟨"2022", by simp, "_2", by simp, true, rfl⟩
  · exact ⟨"2023", by simp, "", by simp, false, rfl⟩
  · exact ⟨"2023", by simp, "", by simp, true, rfl⟩
  · exact ⟨"2023", by simp, "_0", by simp, false, rfl⟩
  · exact ⟨"2023", by simp, "_0", by simp, true, rfl⟩
  · exact ⟨"2023", by simp, "_1", by simp, false, rfl⟩
  · exact ⟨"2023", by simp, "_1", by simp, true, rfl⟩
  · exact ⟨"2023", by simp, "_2", by simp, false, rfl⟩
  · exact ⟨"2023", by simp, "_2", by simp, true, rfl⟩

theorem sep_length_le (dbl : Bool) : (if dbl then ("//" : String) else "/").length ≤ 2 := by
  cases dbl <;> decide

theorem sep_length_ge (dbl : Bool) : 1 ≤ (if dbl then ("//" : String) else "/").length := by
  cases dbl <;> decide

theorem folder_length (x : String) (h : x ∈ ["2022", "2023"]) : x.length = 4 := by
  simp only [List.mem_cons, List.not_mem_nil, or_false] at h
  rcases h with rfl | rfl <;> decide

theorem suffix_length (x : String) (h : x ∈ ["", "_0", "_1", "_2"]) : x.length ≤ 2 := by
  simp only [List.mem_cons, List.not_mem_nil, or_false] at h
  rcases h with rfl | rfl | rfl | rfl <;> decide

/-- C3: for the modifier period (2022), every candidate in the generated
sequence carries the "(mod)" stem, and no URL built from the bare
(non-modifier) stem with any of the period's folders, suffixes and separator
forms ever appears in the sequence, for any entity. -/
theorem modifier_period_no_bare_stem (s f : String) :
    (∀ url ∈ urls_to_try 2022 s f,
       ∃ folder ∈ ["2022", "2023"], ∃ suffix ∈ ["", "_0", "_1", "_2"], ∃ dbl : Bool,
         url = mk_modern_url folder (f ++ "_PYs_" ++ "2022-2023" ++ "_(mod)") suffix ".pdf" dbl) ∧
    (∀ folder ∈ ["2022", "2023"], ∀ suffix ∈ ["", "_0", "_1", "_2"], ∀ dbl : Bool,
       mk_modern_url folder (f ++ "_PYs_" ++ "2022-2023") suffix ".pdf" dbl ∉ urls_to_try 2022 s f) := by
  constructor
  · exact fun url h => mem_urls_2022 s f url h
  · intro folder hfolder suffix hsuffix dbl hmem
    obtain ⟨folder', hfolder', suffix', hsuffix', dbl', heq⟩ := mem_urls_2022 s f _ hmem
    have hl := congrArg String.length heq
    simp only [mk_modern_url, urljoin, String.length_append] at hl
    have e1 := folder_length folder hfolder
    have e2 := folder_length folder' hfolder'
    have e3 := suffix_length suffix hsuffix
    have e4 := suffix_length suffix' hsuffix'
    have e5 := sep_length_le dbl
    have e6 := sep_length_ge dbl'
    have e7 : ("_(mod)" : String).length = 6 := rfl
    omega

theorem modifier_period_no_bare_stem_witness :
    (∃ folder ∈ ["2022", "2023"], ∃ suffix ∈ ["", "_0", "_1", "_2"], ∃ dbl : Bool,
       "https://wioaplans.ed.gov/sites/default/files/pdfs/state-plan/2022/Ohio_PYs_2022-2023_(mod).pdf" =
         mk_modern_url folder ("Ohio" ++ "_PYs_" ++ "2022-2023" ++ "_(mod)") suffix ".pdf" dbl) ∧
    mk_modern_url "2022" ("Ohio" ++ "_PYs_" ++ "2022-2023") "" ".pdf" false ∉
      urls_to_try 2022 "Ohio" "Ohio" :=
  ⟨(modifier_period_no_bare_stem "Ohio" "Ohio").1
      "https://wioaplans.ed.gov/sites/default/files/pdfs/state-plan/2022/Ohio_PYs_2022-2023_(mod).pdf"
      (by decide),
   (modifier_period_no_bare_stem "Ohio" "Ohio").2 "2022" (by decide) "" (by decide) false⟩

theorem existing_file_short_circuit_witness :
    attempt_download (.ok ⟨200, "https://h/a.pdf", none⟩) .fail_after_create 0 "d" ["d/a.pdf"] =
      (some "https://h/a.pdf", ["d/a.pdf"]) :=
  existing_file_short_circuit ⟨200, "https://h/a.pdf", none⟩ .fail_after_create 0 "d"
    ["d/a.pdf"] rfl (by decide)

/-! ### Helper lemmas about the dict model -/

theorem log_lookup_isSome (log : List (LogKey × String)) (k : LogKey) :
    (log_lookup log k).isSome = true ↔ k ∈ log.map Prod.fst := by
  induction log with
  | nil => simp [log_lookup]
  | cons e rest ih =>
    by_cases h : e.1 = k
    · simp [log_lookup, h]
    · simp [log_lookup, h, ih, Ne.symm h]

theorem dict_insert_map_fst (log : List (LogKey × String)) (k : LogKey) (v : String) :
    (dict_insert log k v).map Prod.fst =
      if (log_lookup log k).isSome then log.map Prod.fst else log.map Prod.fst ++ [k] := by
  unfold dict_insert
  split
  · rw [List.map_map]
    apply List.map_congr_left
    intro e _
    by_cases h : e.1 = k
    · simp [Function.comp, h]
    · simp [Function.comp, h]
  · simp

theorem nodup_keys_dict_insert (log : List (LogKey × String)) (k : LogKey) (v : String)
    (h : (log.map Prod.fst).Nodup) : ((dict_insert log k v).map Prod.fst).Nodup := by
  rw [dict_insert_map_fst]
  split
  · exact h
  · rename_i hnone
    have hk : k ∉ log.map Prod.fst := fun hmem => hnone ((log_lookup_isSome log k).mpr hmem)
    rw [List.nodup_append]
    exact ⟨h, List.nodup_singleton k, by simpa [List.Disjoint] using fun a ha (hak : a = k) => hk (hak ▸ ha)⟩

theorem values_ne_dict_insert (log : List (LogKey × String)) (k : LogKey) (v : String)
    (hv : v ≠ "") (h : ∀ e ∈ log, e.2 ≠ "") : ∀ e ∈ dict_insert log k v, e.2 ≠ "" := by
  intro e he
  unfold dict_insert at he
  split at he
  · rw [List.mem_map] at he
    obtain ⟨a, ha, rfl⟩ := he
    by_cases hak : a.1 = k
    · rw [if_pos hak]
      exact hv
    · rw [if_neg hak]
      exact h a ha
  · rw [List.mem_append] at he
    rcases he with he | he
    · exact h e he
    · simp only [List.mem_singleton] at he
      subst he
      exact hv

theorem load_row_preserves (log : List (LogKey × String)) (row : CsvRow)
    (h1 : (log.map Prod.fst).Nodup) (h2 : ∀ e ∈ log, e.2 ≠ "") :
    ((load_row log row).map Prod.fst).Nodup ∧ ∀ e ∈ load_row log row, e.2 ≠ "" := by
  unfold load_row
  cases row.year.toInt? with
  | none => exact ⟨h1, h2⟩
  | some y =>
    simp only []
    split
    · exact ⟨h1, h2⟩
    · rename_i hurl
      exact ⟨nodup_keys_dict_insert _ _ _ h1, values_ne_dict_insert _ _ _ hurl h2⟩

theorem load_foldl_preserves (rows : List CsvRow) :
    ∀ log : List (LogKey × String), (log.map Prod.fst).Nodup → (∀ e ∈ log, e.2 ≠ "") →
      ((rows.foldl load_row log).map Prod.fst).Nodup ∧
      ∀ e ∈ rows.foldl load_row log, e.2 ≠ "" := by
  induction rows with
  | nil => intro log h1 h2; exact ⟨h1, h2⟩
  | cons r rs ih =>
    intro log h1 h2
    have h := load_row_preserves log r h1 h2
    exact ih _ h.1 h.2

/-- C8: the success log as loaded has at most one entry per key and no empty
URL, and whatever the in-memory dict holds, the persisted rows produced by
`save_download_log` have pairwise-distinct keys and no empty URL field — an
empty URL is filtered out at save time, never stored as a resolution. -/
theorem success_log_invariants :
    (∀ rows : List CsvRow,
       ((load_download_log rows).map Prod.fst).Nodup ∧
       ∀ e ∈ load_download_log rows, e.2 ≠ "") ∧
    (∀ log : List (LogKey × String), (log.map Prod.fst).Nodup →
       ((save_download_log log).map Prod.fst).Nodup ∧
       ∀ row ∈ save_download_log log, row.2 ≠ "") := by
  constructor
  · intro rows
    exact load_foldl_preserves rows [] (by simp) (by simp)
  · intro log hnodup
    constructor
    · unfold save_download_log
      simp only []
      rw [List.map_map]
      have hid : (Prod.fst ∘ fun k => (k, log_lookup_default log k)) = id := rfl
      rw [hid, List.map_id]
      exact List.Nodup.filter _ ((List.perm_insertionSort _ _).symm.nodup hnodup)
    · intro row hrow
      unfold save_download_log at hrow
      simp only [] at hrow
      rw [List.mem_map] at hrow
      obtain ⟨k, hk, rfl⟩ := hrow
      rw [List.mem_filter] at hk
      simpa using hk.2

theorem success_log_invariants_witness :
    (((load_download_log [⟨"2024", "Ohio", "u"⟩, ⟨"bad", "X", "v"⟩, ⟨"2016", "Texas", ""⟩]).map Prod.fst).Nodup ∧
      ∀ e ∈ load_download_log [⟨"2024", "Ohio", "u"⟩, ⟨"bad", "X", "v"⟩, ⟨"2016", "Texas", ""⟩], e.2 ≠ "") ∧
    (((save_download_log [((2024, "Ohio"), "u"), ((2016, "Texas"), "")]).map Prod.fst).Nodup ∧
      ∀ row ∈ save_download_log [((2024, "Ohio"), "u"), ((2016, "Texas"), "")], row.2 ≠ "") :=
  ⟨success_log_invariants.1 [⟨"2024", "Ohio", "u"⟩, ⟨"bad", "X", "v"⟩, ⟨"2016", "Texas", ""⟩],
   success_log_invariants.2 [((2024, "Ohio"), "u"), ((2016, "Texas"), "")] (by decide)⟩

/-- C7: a verify-mode (`--update`) run is read-only with respect to both
logs: the success log comes out exactly as it went in and the failure log is
never touched, whatever the probe results are (a renewed failure is only
counted, never demotes the key); and every probe performed is of the stored
URL of a key present in the success log, that URL being nonempty. -/
theorem update_mode_read_only (t : UpdateTargets) (download_log : List (LogKey × String))
    (failed_file : List String) (probe : String → Option String) :
    (update_mode_run t download_log failed_file probe).download_log = download_log ∧
    (update_mode_run t download_log failed_file probe).failed_urls_file = failed_file ∧
    ∀ e ∈ (update_mode_run t download_log failed_file probe).probed,
      e ∈ download_log ∧ e.2 ≠ "" := by
  refine ⟨rfl, rfl, ?_⟩
  intro e he
  simp only [update_mode_run] at he
  rw [List.mem_filterMap] at he
  obtain ⟨a, ha, hfa⟩ := he
  by_cases h1 : process_this_item t a.1.2 a.1.1 = true
  · rw [if_pos h1] at hfa
    by_cases h2 : a.2 = ""
    · rw [if_pos h2] at hfa
      cases hfa
    · rw [if_neg h2] at hfa
      cases hfa
      exact ⟨(List.perm_insertionSort _ download_log).mem_iff.mp ha, h2⟩
  · rw [if_neg h1] at hfa
    cases hfa

theorem update_mode_read_only_witness :
    ((2022, "Ohio"), "u") ∈ ([((2022, "Ohio"), "u")] : List (LogKey × String)) ∧
    ("u" : String) ≠ "" :=
  (update_mode_read_only ⟨[], [], [], true⟩ [((2022, "Ohio"), "u")] [] (fun _ => none)).2.2
    ((2022, "Ohio"), "u") (by decide)
